import Mathlib

/-!
Shallow embedding of `BaseGasOptimizer` (the gas pricing engine of the
base-dev-toolkit repository) and proofs about its operations.

Conventions of the embedding:
* ethers `BigNumber` values are natural numbers; `BigNumber.mul`/`.div` are
  `Nat` multiplication and (floor) division — all quantities handled by the
  engine are non-negative, where `BigNumber` truncating division coincides
  with `Nat` division.  `BigNumber.div` by zero throws; the places where the
  source catches that exception are modelled explicitly.
* JavaScript floating-point numbers that carry configuration or congestion
  values are modelled as rationals (`ℚ`); `Math.floor` is `Int.floor`.
* An `async` operation that can reject is a value of `Except RpcError _`;
  the behaviour of the RPC provider during one execution is a record of the
  results the provider would return for each call the engine makes.
-/

set_option autoImplicit false

namespace BaseDevToolkit

/-- Errors raised by the RPC collaborator (network failures, reverts). -/
abbrev RpcError := String

/-- The utilization figures of a block, as returned by `provider.getBlock`:
`gasUsed` and `gasLimit` are `BigNumber`s. -/
structure Block where
  gasUsed : Nat
  gasLimit : Nat
  deriving DecidableEq, Repr

/-- The caller-supplied options object.  A field is `none` when the key is
absent from the object literal. -/
structure OptionsIn where
  maxGasPrice : Option Nat := none
  gasBuffer : Option ℚ := none
  batchSize : Option Int := none

/-- The engine's configuration after construction. -/
structure Config where
  maxGasPrice : Nat
  gasBuffer : ℚ
  batchSize : Int
  deriving DecidableEq, Repr

/-- The constructor's option handling.  The source builds
`{ maxGasPrice: options.maxGasPrice || parseUnits('20','gwei'),
   gasBuffer: options.gasBuffer || 1.1, batchSize: options.batchSize || 10,
   ...options }`.  Because the spread `...options` comes last, every key
present in `options` overwrites the `||`-defaulted field — including falsy
values such as `0` — so a present key always wins and the defaults apply
only to absent keys.  No validation is performed and construction never
fails.  `parseUnits('20','gwei')` is `20 * 10^9` wei. -/
def mkConfig (options : OptionsIn) : Config :=
  { maxGasPrice := options.maxGasPrice.getD 20000000000
    gasBuffer := options.gasBuffer.getD (11/10)
    batchSize := options.batchSize.getD 10 }

/-- One entry of `gasHistory`, pushed by `estimateGasWithBuffer`. -/
structure GasRecord where
  timestamp : Nat
  estimated : Nat
  buffered : Nat
  deriving DecidableEq, Repr

/-- Engine state: validated-by-nobody options plus the mutable history. -/
structure BaseGasOptimizer where
  options : Config
  gasHistory : List GasRecord

/-- `new BaseGasOptimizer(provider, options)`: stores the merged options and
an empty history.  Total — the constructor rejects nothing. -/
def mkBaseGasOptimizer (options : OptionsIn) : BaseGasOptimizer :=
  { options := mkConfig options, gasHistory := [] }

/-- `getNetworkCongestion()`: fetches the latest block and returns
`parseFloat(gasUsed.div(gasLimit).toString())`.  `BigNumber.div` is
truncating integer division, so the parsed float is the integer
`gasUsed / gasLimit`; division by a zero `gasLimit` throws inside the
`try`, and the `catch` (like any fetch failure) returns `0.5`. -/
def getNetworkCongestion (latestBlock : Except RpcError Block) : ℚ :=
  match latestBlock with
  | .error _ => 1/2
  | .ok b =>
    if b.gasLimit = 0 then 1/2
    else ((b.gasUsed / b.gasLimit : Nat) : ℚ)

/-- The congestion-tier adjustment inside `getOptimalGasPrice`:
`congestion > 0.8` gives `gasPrice.mul(120).div(100)`,
`congestion < 0.3` gives `gasPrice.mul(90).div(100)`,
otherwise the price is unchanged. -/
def adjustForCongestion (gasPrice : Nat) (networkCongestion : ℚ) : Nat :=
  if networkCongestion > 8/10 then gasPrice * 120 / 100
  else if networkCongestion < 3/10 then gasPrice * 90 / 100
  else gasPrice

/-- The body of `getOptimalGasPrice` after both fetches succeed: tier
adjustment followed by the cap
`adjusted.gt(maxGasPrice) ? maxGasPrice : adjusted`. -/
def optimalGasPriceCore (maxGasPrice : Nat) (gasPrice : Nat)
    (networkCongestion : ℚ) : Nat :=
  let adjustedGasPrice := adjustForCongestion gasPrice networkCongestion
  if adjustedGasPrice > maxGasPrice then maxGasPrice else adjustedGasPrice

/-- The provider's behaviour during one call of `getOptimalGasPrice`:
the result of the `provider.getGasPrice()` call in the `try` block, the
result of the second `provider.getGasPrice()` call made inside the `catch`
block (reached only if the first rejected), and the result of
`provider.getBlock('latest')` made by `getNetworkCongestion`. -/
structure PriceProvider where
  gasPrice1 : Except RpcError Nat
  gasPrice2 : Except RpcError Nat
  latestBlock : Except RpcError Block

/-- `getOptimalGasPrice()`.  The `try` block fetches the gas price and the
congestion (the latter never throws: `getNetworkCongestion` has its own
`catch`), adjusts and caps.  If the initial price fetch rejected, the
`catch` block returns `this.provider.getGasPrice()` afresh — unadjusted and
uncapped — and a rejection of that second call propagates to the caller. -/
def getOptimalGasPrice (options : Config) (provider : PriceProvider) :
    Except RpcError Nat :=
  match provider.gasPrice1 with
  | .ok gasPrice =>
    let networkCongestion := getNetworkCongestion provider.latestBlock
    .ok (optimalGasPriceCore options.maxGasPrice gasPrice networkCongestion)
  | .error _ => provider.gasPrice2

/-- The buffered gas value of `estimateGasWithBuffer`:
`gasEstimate.mul(Math.floor(gasBuffer * 100)).div(100)`.  For the
non-negative buffers the engine is used with, `Math.floor` coincides with
`Int.floor … |>.toNat`. -/
def bufferedGasValue (gasBuffer : ℚ) (gasEstimate : Nat) : Nat :=
  gasEstimate * (⌊gasBuffer * 100⌋).toNat / 100

/-- `estimateGasWithBuffer(transaction)`.  `gasEstimate` is the result of
`provider.estimateGas(transaction)`; on success the buffered value is
computed and a record is pushed onto `gasHistory`; on failure the `catch`
logs and rethrows the same error (`throw error`), pushing nothing.  Returns
the buffered estimate together with the updated history. -/
def estimateGasWithBuffer (options : Config) (gasHistory : List GasRecord)
    (now : Nat) (gasEstimate : Except RpcError Nat) :
    Except RpcError (Nat × List GasRecord) :=
  match gasEstimate with
  | .ok rawEstimate =>
    let bufferedGas := bufferedGasValue options.gasBuffer rawEstimate
    .ok (bufferedGas,
      gasHistory ++ [{ timestamp := now, estimated := rawEstimate,
                       buffered := bufferedGas }])
  | .error e => .error e

/-- A draft transaction annotated by `batchTransactions` /
`optimizeContractCall`: `{...tx, gasPrice, gasLimit}`. -/
structure AnnotatedTx (Tx : Type) where
  tx : Tx
  gasPrice : Nat
  gasLimit : Nat
  deriving DecidableEq, Repr

/-- The slicing loop of `batchTransactions`:
`for (let i = 0; i < transactions.length; i += batchSize)
   batches.push(transactions.slice(i, i + batchSize))`.
Structured recursively with the list length as fuel: each iteration with
`batchSize ≥ 1` consumes at least one element, so `transactions.length`
iterations always suffice.  (With `batchSize ≤ 0` the source loop never
terminates; the model is meaningful only for `batchSize ≥ 1` and the
theorems assume it.) -/
def chunkGo {Tx : Type} (batchSize : Nat) : Nat → List Tx → List (List Tx)
  | 0, _ => []
  | _, [] => []
  | fuel + 1, transactions =>
    transactions.take batchSize ::
      chunkGo batchSize fuel (transactions.drop batchSize)

/-- The list of batches built by the slicing loop of `batchTransactions`. -/
def chunkList {Tx : Type} (batchSize : Nat) (transactions : List Tx) :
    List (List Tx) :=
  chunkGo batchSize transactions.length transactions

/-- The per-transaction body inside a batch of `batchTransactions`:
`gasPrice = await getOptimalGasPrice(); gasLimit = await
estimateGasWithBuffer(tx); return {...tx, gasPrice, gasLimit}`.  The two
provider interactions are abstracted as per-transaction oracles `price`
(the outcome of that transaction's `getOptimalGasPrice()` call) and
`estimate` (the outcome of its buffered estimation); a rejection of either
rejects the whole `Promise.all` of the group. -/
def annotateTx {Tx : Type} (price : Tx → Except RpcError Nat)
    (estimate : Tx → Except RpcError Nat) (tx : Tx) :
    Except RpcError (AnnotatedTx Tx) := do
  let gasPrice ← price tx
  let gasLimit ← estimate tx
  pure { tx := tx, gasPrice := gasPrice, gasLimit := gasLimit }

/-- `batchTransactions(transactions)`: slice the input into batches of at
most `batchSize`, process the batches sequentially (each batch's
`Promise.all` fully awaited before the next), and concatenate the batch
results with `results.push(...batchResults)`. -/
def batchTransactions {Tx : Type} (batchSize : Nat)
    (price : Tx → Except RpcError Nat) (estimate : Tx → Except RpcError Nat)
    (transactions : List Tx) : Except RpcError (List (AnnotatedTx Tx)) := do
  let batches := chunkList batchSize transactions
  let batchResults ← batches.mapM (fun batch =>
    batch.mapM (annotateTx price estimate))
  pure batchResults.flatten

/-- The record returned by `getGasStats()` on a non-empty history.
`bufferEfficiency` is the exact rational value
`(avgBuffered - avgEstimated) / avgEstimated * 100` that the source feeds
to the presentation-layer formatting `.toFixed(2) + '%'`; the string
formatting itself is not modelled. -/
structure GasStats where
  totalTransactions : Nat
  recentAvgEstimated : Nat
  recentAvgBuffered : Nat
  bufferEfficiency : ℚ
  deriving DecidableEq, Repr

/-- `getGasStats()`.  An empty history returns
`{ message: 'No gas history available' }`, modelled as `none` — no
averaging or division happens on that path.  Otherwise `recent =
gasHistory.slice(-10)` is the suffix of at most 10 records
(`List.drop (length - 10)`), the averages are float divisions of the sums
by `recent.length`, and the reported averages are their `Math.floor`. -/
def getGasStats (gasHistory : List GasRecord) : Option GasStats :=
  if gasHistory.length = 0 then none
  else
    let recent := gasHistory.drop (gasHistory.length - 10)
    let avgEstimated : ℚ :=
      ((recent.map (·.estimated)).sum : ℚ) / (recent.length : ℚ)
    let avgBuffered : ℚ :=
      ((recent.map (·.buffered)).sum : ℚ) / (recent.length : ℚ)
    some { totalTransactions := gasHistory.length
           recentAvgEstimated := (⌊avgEstimated⌋).toNat
           recentAvgBuffered := (⌊avgBuffered⌋).toNat
           bufferEfficiency := (avgBuffered - avgEstimated) / avgEstimated * 100 }

/-! ## General lemmas about the embedding -/

/-- A `Nat` division, as performed by `BigNumber.div` on non-negative
values, is the floor of the exact rational quotient. -/
theorem natCast_div_eq_floor (n d : Nat) :
    ((n / d : Nat) : ℤ) = ⌊((n : ℚ) / (d : ℚ))⌋ := by
  rw [Rat.floor_natCast_div_natCast]
  exact Int.natCast_div n d

/-- Concatenating the batches built by the slicing loop recovers the input
(provided the loop makes progress, i.e. `batchSize ≥ 1`). -/
theorem chunkGo_flatten {Tx : Type} (batchSize : Nat) (hn : 1 ≤ batchSize) :
    ∀ (fuel : Nat) (xs : List Tx), xs.length ≤ fuel →
      (chunkGo batchSize fuel xs).flatten = xs := by
  intro fuel
  induction fuel with
  | zero =>
    intro xs hxs
    rw [List.length_eq_zero.mp (Nat.le_zero.mp hxs)]
    rfl
  | succ fuel ih =>
    intro xs hxs
    match xs with
    | [] => rfl
    | a :: l =>
      show (List.take batchSize (a :: l) ::
        chunkGo batchSize fuel (List.drop batchSize (a :: l))).flatten = a :: l
      rw [List.flatten_cons, ih (List.drop batchSize (a :: l)) ?_,
        List.take_append_drop]
      rw [List.length_drop]
      omega

/-- Every batch built by the slicing loop has at most `batchSize`
elements. -/
theorem chunkGo_batch_length_le {Tx : Type} (batchSize : Nat) :
    ∀ (fuel : Nat) (xs : List Tx) (b : List Tx),
      b ∈ chunkGo batchSize fuel xs → b.length ≤ batchSize := by
  intro fuel
  induction fuel with
  | zero =>
    intro xs b hb
    rw [show chunkGo batchSize 0 xs = [] by cases xs <;> rfl] at hb
    exact absurd hb (List.not_mem_nil b)
  | succ fuel ih =>
    intro xs b hb
    match xs with
    | [] =>
      rw [show chunkGo batchSize (fuel + 1) ([] : List Tx) = [] from rfl] at hb
      exact absurd hb (List.not_mem_nil b)
    | a :: l =>
      rcases List.mem_cons.mp hb with h | h
      · rw [h, List.length_take]
        exact min_le_left _ _
      · exact ih (List.drop batchSize (a :: l)) b h

/-- `chunkList` version of `chunkGo_flatten`. -/
theorem chunkList_flatten {Tx : Type} (batchSize : Nat) (hn : 1 ≤ batchSize)
    (xs : List Tx) : (chunkList batchSize xs).flatten = xs :=
  chunkGo_flatten batchSize hn xs.length xs le_rfl

/-- `chunkList` version of `chunkGo_batch_length_le`. -/
theorem chunkList_batch_length_le {Tx : Type} (batchSize : Nat)
    (xs : List Tx) (b : List Tx) (hb : b ∈ chunkList batchSize xs) :
    b.length ≤ batchSize :=
  chunkGo_batch_length_le batchSize xs.length xs b hb

/-- `List.mapM` in the `Except` monad succeeds pointwise: if `f` returns
`g t` on every element, the traversal returns the `map` of `g`. -/
theorem mapM_ok {α β : Type} (f : α → Except RpcError β) (g : α → β) :
    ∀ (l : List α), (∀ t ∈ l, f t = .ok (g t)) →
      l.mapM f = .ok (l.map g) := by
  intro l
  induction l with
  | nil => intro _; rfl
  | cons a l ih =>
    intro h
    rw [List.mapM_cons, h a (List.mem_cons_self a l),
      ih (fun t ht => h t (List.mem_cons_of_mem a ht))]
    rfl

/-- A transaction whose price and estimation calls both succeed is
annotated with exactly those results. -/
theorem annotateTx_ok {Tx : Type} (price estimate : Tx → Except RpcError Nat)
    (t : Tx) (p e : Nat) (hp : price t = .ok p) (he : estimate t = .ok e) :
    annotateTx price estimate t = .ok ⟨t, p, e⟩ := by
  rw [annotateTx, hp, he]
  rfl

/-- Full characterization of `batchTransactions` on an input where every
transaction's two provider interactions succeed: the output is the
order-preserving annotation of the input. -/
theorem batchTransactions_ok {Tx : Type} (batchSize : Nat)
    (price estimate : Tx → Except RpcError Nat) (pf ef : Tx → Nat)
    (transactions : List Tx) (hn : 1 ≤ batchSize)
    (hp : ∀ t ∈ transactions, price t = .ok (pf t))
    (he : ∀ t ∈ transactions, estimate t = .ok (ef t)) :
    batchTransactions batchSize price estimate transactions =
      .ok (transactions.map fun t => ⟨t, pf t, ef t⟩) := by
  have hflat := chunkList_flatten batchSize hn transactions
  have hmem : ∀ b ∈ chunkList batchSize transactions, ∀ t ∈ b,
      t ∈ transactions := by
    intro b hb t ht
    rw [← hflat]
    exact List.mem_flatten.mpr ⟨b, hb, ht⟩
  have hinner : ∀ b ∈ chunkList batchSize transactions,
      b.mapM (annotateTx price estimate) =
        .ok (b.map fun t => ⟨t, pf t, ef t⟩) := by
    intro b hb
    exact mapM_ok _ _ b fun t ht =>
      annotateTx_ok price estimate t (pf t) (ef t)
        (hp t (hmem b hb t ht)) (he t (hmem b hb t ht))
  have houter := mapM_ok (fun b => b.mapM (annotateTx price estimate))
    (fun b => b.map fun t => ⟨t, pf t, ef t⟩)
    (chunkList batchSize transactions) hinner
  simp only [batchTransactions]
  rw [houter]
  show Except.ok (((chunkList batchSize transactions).map
      (fun b => b.map fun t => (⟨t, pf t, ef t⟩ : AnnotatedTx Tx))).flatten) = _
  rw [← List.map_flatten, hflat]

/-- The fallback congestion value `0.5` selects the medium tier: no
adjustment. -/
theorem adjustForCongestion_half (p : Nat) :
    adjustForCongestion p (1/2) = p := by
  rw [adjustForCongestion, if_neg (by norm_num), if_neg (by norm_num)]

/-- The cap at the end of the non-error path of `getOptimalGasPrice` keeps
the result at or below `maxGasPrice`. -/
theorem optimalGasPriceCore_le_max (maxGasPrice gasPrice : Nat) (c : ℚ) :
    optimalGasPriceCore maxGasPrice gasPrice c ≤ maxGasPrice := by
  simp only [optimalGasPriceCore]
  split <;> omega

/-! ## The claims -/

/-- C1 (counterexample): on the execution path where the initial RPC price
fetch fails and the retry inside the `catch` returns 30 while
`maxGasPrice` is 20, `getOptimalGasPrice()` returns 30 — the configured cap
is exceeded, refuting the claim that every path (the RPC-failure path
included) returns at most `maxGasPrice`. -/
theorem claim1_cap_counterexample :
    (Config.mk 20 (11/10) 10).maxGasPrice = 20 ∧
    getOptimalGasPrice (Config.mk 20 (11/10) 10)
      ⟨.error "network down", .ok 30, .error "network down"⟩ = .ok 30 ∧
    ¬(30 ≤ 20) :=
  ⟨rfl, rfl, by norm_num⟩

/-- C1 (amended): whenever the initial price fetch succeeds — whether or
not the congestion fetch fails — `getOptimalGasPrice()` returns a price
that is at most `maxGasPrice` and at least 0; only the fallback path taken
after a failed price fetch returns an uncapped price. -/
theorem claim1_cap_amended (options : Config) (provider : PriceProvider)
    (p : Nat) (h : provider.gasPrice1 = .ok p) :
    ∃ r, getOptimalGasPrice options provider = .ok r ∧
      r ≤ options.maxGasPrice ∧ 0 ≤ r := by
  refine ⟨optimalGasPriceCore options.maxGasPrice p
    (getNetworkCongestion provider.latestBlock), ?_,
    optimalGasPriceCore_le_max _ _ _, Nat.zero_le _⟩
  rw [getOptimalGasPrice, h]

/-- Witness for C1 (amended): a concrete execution whose initial price
fetch succeeds with 50 against `maxGasPrice = 20`. -/
theorem claim1_cap_amended_witness :
    ∃ r, getOptimalGasPrice (Config.mk 20 (11/10) 10)
      ⟨.ok 50, .ok 0, .error "network down"⟩ = .ok r ∧ r ≤ 20 ∧ 0 ≤ r :=
  claim1_cap_amended (Config.mk 20 (11/10) 10)
    ⟨.ok 50, .ok 0, .error "network down"⟩ 50 rfl

/-- C5: a successfully fetched block whose `gasLimit` is zero does not
crash the congestion computation: the thrown `BigNumber` division fault is
caught, the congestion defaults to `0.5` (medium tier — no adjustment),
and `getOptimalGasPrice()` returns the base price itself whenever it is
within the cap. -/
theorem claim5_zero_gas_limit (options : Config) (u p : Nat)
    (gasPrice2 : Except RpcError Nat) :
    getNetworkCongestion (.ok ⟨u, 0⟩) = 1/2 ∧
    adjustForCongestion p (getNetworkCongestion (.ok ⟨u, 0⟩)) = p ∧
    (p ≤ options.maxGasPrice →
      getOptimalGasPrice options ⟨.ok p, gasPrice2, .ok ⟨u, 0⟩⟩ = .ok p) := by
  have hc : getNetworkCongestion (.ok ⟨u, 0⟩) = 1/2 := rfl
  refine ⟨hc, by rw [hc]; exact adjustForCongestion_half p, fun hle => ?_⟩
  show Except.ok (optimalGasPriceCore options.maxGasPrice p
    (getNetworkCongestion (.ok ⟨u, 0⟩))) = Except.ok p
  rw [hc, optimalGasPriceCore]
  simp only [adjustForCongestion_half]
  rw [if_neg (by omega)]

/-- Witness for C5: base price 15 against `maxGasPrice` 20 and a
zero-`gasLimit` block. -/
theorem claim5_zero_gas_limit_witness :
    15 ≤ (Config.mk 20 (11/10) 10).maxGasPrice ∧
    getOptimalGasPrice (Config.mk 20 (11/10) 10)
      ⟨.ok 15, .ok 0, .ok ⟨7, 0⟩⟩ = .ok 15 :=
  ⟨by norm_num,
    (claim5_zero_gas_limit (Config.mk 20 (11/10) 10) 7 15 (.ok 0)).2.2
      (by norm_num)⟩

/-- C6 (counterexample): when the RPC collaborator fails persistently, the
initial price fetch rejects, the `catch` block's retry
`this.provider.getGasPrice()` rejects as well, and that rejection
propagates to the caller — refuting the claim that a failing price fetch
never propagates and yields the raw base price instead. -/
theorem claim6_failure_counterexample :
    getOptimalGasPrice (Config.mk 20 (11/10) 10)
      ⟨.error "network down", .error "network down", .error "network down"⟩
      = .error "network down" :=
  rfl

/-- C6 (amended): a failed congestion fetch is absorbed (medium tier, the
capped base price is returned); a failed price fetch triggers one fresh
`getGasPrice()` call whose successful value is returned raw (unadjusted
and uncapped), but if that retry fails too the failure propagates to the
caller. -/
theorem claim6_failure_amended (options : Config) (p pRetry : Nat)
    (gasPrice2 : Except RpcError Nat) (e e1 e2 : RpcError)
    (latestBlock : Except RpcError Block) :
    (getOptimalGasPrice options ⟨.ok p, gasPrice2, .error e⟩ =
      .ok (if p > options.maxGasPrice then options.maxGasPrice else p)) ∧
    (getOptimalGasPrice options ⟨.error e1, .ok pRetry, latestBlock⟩
      = .ok pRetry) ∧
    (getOptimalGasPrice options ⟨.error e1, .error e2, latestBlock⟩
      = .error e2) := by
  refine ⟨?_, rfl, rfl⟩
  show Except.ok (optimalGasPriceCore options.maxGasPrice p
    (getNetworkCongestion (.error e))) = _
  rw [show getNetworkCongestion (.error e) = 1/2 from rfl, optimalGasPriceCore]
  simp only [adjustForCongestion_half]

/-- C7: when the collaborator's gas simulation rejects a transaction,
`estimateGasWithBuffer` rethrows that very error: no retry, no fallback
value, no buffered estimate, and no history entry. -/
theorem claim7_estimation_failure_surfaced (options : Config)
    (gasHistory : List GasRecord) (now : Nat) (e : RpcError) :
    estimateGasWithBuffer options gasHistory now (.error e) = .error e :=
  rfl

/-- C8 (code behaviour at the failing input): construction performs no
validation.  `new BaseGasOptimizer(provider, { gasBuffer: 0.5 })` succeeds
and the resulting engine under-funds: a raw estimate of 21000 is buffered
down to 10500; `batchSize: -3` is likewise accepted verbatim.  This
contradicts the claim that such configurations are rejected with a
descriptive error at construction time. -/
theorem claim8_no_validation_code_behavior :
    (mkBaseGasOptimizer { gasBuffer := some (1/2) }).options.gasBuffer
      = 1/2 ∧
    estimateGasWithBuffer
      (mkBaseGasOptimizer { gasBuffer := some (1/2) }).options [] 0
      (.ok 21000) = .ok (10500, [⟨0, 21000, 10500⟩]) ∧
    10500 < 21000 ∧
    (mkBaseGasOptimizer { batchSize := some (-3) }).options.batchSize
      = -3 := by
  refine ⟨rfl, ?_, by norm_num, rfl⟩
  norm_num [estimateGasWithBuffer, bufferedGasValue, mkBaseGasOptimizer,
    mkConfig]
  decide

/-- C2 (counterexample): the adjustment is computed in `BigNumber` integer
arithmetic (`gasPrice.mul(120).div(100)`), so for base price 7 and
congestion 0.9 the pre-clamp adjusted price is 8, not `7 * 1.20 = 8.4` —
the claimed exact equality with `p * 1.20` fails. -/
theorem claim2_tier_counterexample :
    adjustForCongestion 7 (9/10) = 8 ∧
    ((adjustForCongestion 7 (9/10) : ℚ) ≠ (7 : ℚ) * (120/100)) := by
  have h : adjustForCongestion 7 (9/10) = 8 := by
    rw [adjustForCongestion, if_pos (by norm_num)]
  exact ⟨h, by rw [h]; norm_num⟩

/-- C2 (amended): for every base price `p` and congestion `c ∈ [0,1]`, the
pre-clamp adjusted price is `⌊p * 1.20⌋` when `c > 0.8`, `⌊p * 0.90⌋` when
`c < 0.3`, and exactly `p` when `0.3 ≤ c ≤ 0.8`; with base price 10,
congestion 0.9 and `maxGasPrice` 11 the adjusted price is 12 and the
clamped result is 11. -/
theorem claim2_tier_amended (p : Nat) (c : ℚ) (hc0 : 0 ≤ c) (hc1 : c ≤ 1) :
    (8/10 < c → (adjustForCongestion p c : ℤ) = ⌊(p : ℚ) * (120/100)⌋) ∧
    (c < 3/10 → (adjustForCongestion p c : ℤ) = ⌊(p : ℚ) * (90/100)⌋) ∧
    (3/10 ≤ c → c ≤ 8/10 → adjustForCongestion p c = p) ∧
    adjustForCongestion 10 (9/10) = 12 ∧
    optimalGasPriceCore 11 10 (9/10) = 11 := by
  have hhigh : adjustForCongestion 10 (9/10) = 12 := by
    rw [adjustForCongestion, if_pos (by norm_num)]
  refine ⟨fun h => ?_, fun h => ?_, fun h1 h2 => ?_, hhigh, ?_⟩
  · rw [adjustForCongestion, if_pos h, natCast_div_eq_floor]
    congr 1
    push_cast
    ring
  · rw [adjustForCongestion, if_neg (by rw [not_lt]; linarith),
      if_pos h, natCast_div_eq_floor]
    congr 1
    push_cast
    ring
  · rw [adjustForCongestion, if_neg (by rw [not_lt]; exact h2),
      if_neg (by rw [not_lt]; exact h1)]
  · rw [optimalGasPriceCore]
    simp only [hhigh]
    rw [if_pos (by norm_num)]

/-- Witness for C2 (amended): base price 7, congestion 0.9. -/
theorem claim2_tier_amended_witness :
    (0 ≤ (9/10 : ℚ) ∧ (9/10 : ℚ) ≤ 1) ∧
    ((8/10 : ℚ) < 9/10 →
      (adjustForCongestion 7 (9/10) : ℤ) = ⌊(7 : ℚ) * (120/100)⌋) ∧
    ((9/10 : ℚ) < 3/10 →
      (adjustForCongestion 7 (9/10) : ℤ) = ⌊(7 : ℚ) * (90/100)⌋) ∧
    ((3/10 : ℚ) ≤ 9/10 → (9/10 : ℚ) ≤ 8/10 →
      adjustForCongestion 7 (9/10) = 7) ∧
    adjustForCongestion 10 (9/10) = 12 ∧
    optimalGasPriceCore 11 10 (9/10) = 11 :=
  ⟨⟨by norm_num, by norm_num⟩,
    claim2_tier_amended 7 (9/10) (by norm_num) (by norm_num)⟩

/-- C3 (counterexample): the source quantizes the buffer to hundredths
(`Math.floor(gasBuffer * 100)` then `div(100)`), so with
`gasBuffer = 129/128 = 1.0078125` (exactly representable as a double) and
raw estimate 128 the code returns `128 * 100 / 100 = 128`, while the
claimed `floor(r * gasBuffer)` is 129. -/
theorem claim3_buffer_counterexample :
    estimateGasWithBuffer (Config.mk 20000000000 (129/128) 10) [] 0
      (.ok 128) = .ok (128, [⟨0, 128, 128⟩]) ∧
    (⌊(128 : ℚ) * (129/128)⌋ : ℤ) = 129 ∧ (128 : ℤ) ≠ 129 := by
  refine ⟨?_, by norm_num, by norm_num⟩
  norm_num [estimateGasWithBuffer, bufferedGasValue]
  decide

/-- C3 (amended): for every `gasBuffer ≥ 1.0` and raw estimate `r`,
`estimateGasWithBuffer` returns exactly
`⌊r * ⌊gasBuffer * 100⌋ / 100⌋` (the buffer quantized to hundredths), the
result is ≥ `r`, and a record of the estimate is appended to the history;
with `r = 21000` and `gasBuffer = 1.1` the result is 23100. -/
theorem claim3_buffer_amended (options : Config) (r : Nat)
    (gasHistory : List GasRecord) (now : Nat)
    (hb : 1 ≤ options.gasBuffer) :
    estimateGasWithBuffer options gasHistory now (.ok r) =
      .ok (bufferedGasValue options.gasBuffer r,
        gasHistory ++ [⟨now, r, bufferedGasValue options.gasBuffer r⟩]) ∧
    (bufferedGasValue options.gasBuffer r : ℤ)
      = ⌊((r : ℚ) * ((⌊options.gasBuffer * 100⌋ : ℤ) : ℚ)) / 100⌋ ∧
    r ≤ bufferedGasValue options.gasBuffer r ∧
    bufferedGasValue (11/10) 21000 = 23100 := by
  have hm : (100 : ℤ) ≤ ⌊options.gasBuffer * 100⌋ := by
    rw [Int.le_floor]
    push_cast
    linarith
  have hm0 : (0 : ℤ) ≤ ⌊options.gasBuffer * 100⌋ := by linarith
  have hmt : 100 ≤ (⌊options.gasBuffer * 100⌋).toNat := by omega
  refine ⟨rfl, ?_, ?_, ?_⟩
  · rw [bufferedGasValue, natCast_div_eq_floor]
    congr 1
    have hcast : ((⌊options.gasBuffer * 100⌋.toNat : ℕ) : ℚ)
        = ((⌊options.gasBuffer * 100⌋ : ℤ) : ℚ) := by
      exact_mod_cast Int.toNat_of_nonneg hm0
    push_cast
    rw [hcast]
  · calc r = r * 100 / 100 := by omega
    _ ≤ r * (⌊options.gasBuffer * 100⌋).toNat / 100 :=
      Nat.div_le_div_right (Nat.mul_le_mul_left r hmt)
  · norm_num [bufferedGasValue]
    decide

/-- Witness for C3 (amended): `gasBuffer = 1.1`, raw estimate 21000. -/
theorem claim3_buffer_amended_witness :
    (1 : ℚ) ≤ (Config.mk 20000000000 (11/10) 10).gasBuffer ∧
    estimateGasWithBuffer (Config.mk 20000000000 (11/10) 10) [] 0
      (.ok 21000) =
      .ok (bufferedGasValue (11/10) 21000,
        [] ++ [⟨0, 21000, bufferedGasValue (11/10) 21000⟩]) ∧
    bufferedGasValue (11/10) 21000 = 23100 :=
  ⟨by norm_num,
    (claim3_buffer_amended (Config.mk 20000000000 (11/10) 10) 21000 [] 0
      (by norm_num)).1,
    (claim3_buffer_amended (Config.mk 20000000000 (11/10) 10) 21000 [] 0
      (by norm_num)).2.2.2⟩

/-- C4: on any input sequence (any length, any `batchSize ≥ 1`) on which
every transaction's price and estimation calls succeed,
`batchTransactions` returns the same-length, same-order sequence of the
input transactions annotated with their own `gasPrice` and `gasLimit`; the
input is partitioned into contiguous in-order batches of at most
`batchSize`, and 25 transactions with `batchSize = 10` are sliced into
batches of 10, 10 and 5, in that order. -/
theorem claim4_batch_order_length {Tx : Type} (batchSize : Nat)
    (price estimate : Tx → Except RpcError Nat) (pf ef : Tx → Nat)
    (transactions : List Tx) (hn : 1 ≤ batchSize)
    (hp : ∀ t ∈ transactions, price t = .ok (pf t))
    (he : ∀ t ∈ transactions, estimate t = .ok (ef t)) :
    batchTransactions batchSize price estimate transactions =
      .ok (transactions.map fun t => ⟨t, pf t, ef t⟩) ∧
    (transactions.map fun t => (⟨t, pf t, ef t⟩ : AnnotatedTx Tx)).length
      = transactions.length ∧
    (transactions.map fun t => (⟨t, pf t, ef t⟩ : AnnotatedTx Tx)).map
      (·.tx) = transactions ∧
    (chunkList batchSize transactions).flatten = transactions ∧
    (∀ b ∈ chunkList batchSize transactions, b.length ≤ batchSize) ∧
    (chunkList 10 (List.range 25)).map List.length = [10, 10, 5] := by
  refine ⟨batchTransactions_ok batchSize price estimate pf ef transactions
      hn hp he, List.length_map _ _, ?_,
    chunkList_flatten batchSize hn transactions,
    fun b hb => chunkList_batch_length_le batchSize transactions b hb,
    by decide⟩
  have hid : ((fun x : AnnotatedTx Tx => x.tx) ∘
      fun t => (⟨t, pf t, ef t⟩ : AnnotatedTx Tx)) = id := rfl
  rw [List.map_map, hid, List.map_id]

/-- Witness for C4: three transactions, `batchSize = 2`, with oracles that
succeed on every transaction. -/
theorem claim4_batch_order_length_witness :
    batchTransactions 2 (fun t => .ok (t + 100)) (fun t => .ok (t + 200))
      [1, 2, 3] = .ok ([1, 2, 3].map fun t => ⟨t, t + 100, t + 200⟩) ∧
    ([1, 2, 3].map fun t => (⟨t, t + 100, t + 200⟩ : AnnotatedTx Nat)).length
      = [1, 2, 3].length ∧
    ([1, 2, 3].map fun t => (⟨t, t + 100, t + 200⟩ : AnnotatedTx Nat)).map
      (·.tx) = [1, 2, 3] ∧
    (chunkList 2 [1, 2, 3]).flatten = [1, 2, 3] ∧
    (∀ b ∈ chunkList 2 [1, 2, 3], b.length ≤ 2) ∧
    (chunkList 10 (List.range 25)).map List.length = [10, 10, 5] :=
  claim4_batch_order_length 2 (fun t => .ok (t + 100))
    (fun t => .ok (t + 200)) (fun t => t + 100) (fun t => t + 200) [1, 2, 3]
    (by norm_num) (fun t _ => rfl) (fun t _ => rfl)

/-- C9 (counterexample): on a history of two records with raw estimates 1
and 2 (buffered 2 and 3), `getGasStats()` reports `recentAvgEstimated = 1`
via `Math.floor`, while the mean raw estimate over the window is
`(1 + 2) / 2 = 1.5` — the reported value is the floor of the mean, not the
mean the claim states. -/
theorem claim9_stats_counterexample :
    getGasStats [⟨0, 1, 2⟩, ⟨0, 2, 3⟩] = some ⟨2, 1, 2, 200/3⟩ ∧
    ((1 : ℚ) ≠ (1 + 2) / 2) := by
  constructor
  · norm_num [getGasStats]
    decide
  · norm_num

/-- C9 (amended): `getGasStats()` on an empty history returns the
"no data" indicator and performs no division; on a non-empty history it
returns the all-time record count, the floors of the mean raw and mean
buffered estimates over the (at most 10) most recent records, and a buffer
efficiency equal to `(meanBuffered − meanRaw) / meanRaw * 100` computed
from the unfloored means (the source formats that number to two decimal
places for display). -/
theorem claim9_stats_amended (gasHistory : List GasRecord) :
    getGasStats [] = none ∧
    (gasHistory ≠ [] →
      ∃ s, getGasStats gasHistory = some s ∧
        s.totalTransactions = gasHistory.length ∧
        (gasHistory.drop (gasHistory.length - 10)).length
          = min 10 gasHistory.length ∧
        gasHistory.take (gasHistory.length - 10)
          ++ gasHistory.drop (gasHistory.length - 10) = gasHistory ∧
        (s.recentAvgEstimated : ℤ) =
          ⌊(((gasHistory.drop (gasHistory.length - 10)).map
              (·.estimated)).sum : ℚ)
            / ((gasHistory.drop (gasHistory.length - 10)).length : ℚ)⌋ ∧
        (s.recentAvgBuffered : ℤ) =
          ⌊(((gasHistory.drop (gasHistory.length - 10)).map
              (·.buffered)).sum : ℚ)
            / ((gasHistory.drop (gasHistory.length - 10)).length : ℚ)⌋ ∧
        s.bufferEfficiency =
          ((((gasHistory.drop (gasHistory.length - 10)).map
                (·.buffered)).sum : ℚ)
              / ((gasHistory.drop (gasHistory.length - 10)).length : ℚ)
            - (((gasHistory.drop (gasHistory.length - 10)).map
                (·.estimated)).sum : ℚ)
              / ((gasHistory.drop (gasHistory.length - 10)).length : ℚ))
            / ((((gasHistory.drop (gasHistory.length - 10)).map
                (·.estimated)).sum : ℚ)
              / ((gasHistory.drop (gasHistory.length - 10)).length : ℚ))
            * 100) := by
  refine ⟨rfl, fun hne => ?_⟩
  rw [getGasStats, if_neg (by simpa using hne)]
  refine ⟨_, rfl, rfl, ?_, List.take_append_drop _ _, ?_, ?_, rfl⟩
  · rw [List.length_drop]
    omega
  · refine Int.toNat_of_nonneg (Int.floor_nonneg.mpr
      (div_nonneg (List.sum_nonneg ?_) (by positivity)))
    intro y hy
    obtain ⟨x, -, rfl⟩ := List.mem_map.mp hy
    positivity
  · refine Int.toNat_of_nonneg (Int.floor_nonneg.mpr
      (div_nonneg (List.sum_nonneg ?_) (by positivity)))
    intro y hy
    obtain ⟨x, -, rfl⟩ := List.mem_map.mp hy
    positivity

/-- Witness for C9 (amended): the one-record history `[⟨5, 4, 6⟩]`. -/
theorem claim9_stats_amended_witness :
    ([⟨5, 4, 6⟩] : List GasRecord) ≠ [] ∧
    (∃ s, getGasStats ([⟨5, 4, 6⟩] : List GasRecord) = some s ∧
      s.totalTransactions = ([⟨5, 4, 6⟩] : List GasRecord).length ∧
      (([⟨5, 4, 6⟩] : List GasRecord).drop
          (([⟨5, 4, 6⟩] : List GasRecord).length - 10)).length
        = min 10 ([⟨5, 4, 6⟩] : List GasRecord).length ∧
      ([⟨5, 4, 6⟩] : List GasRecord).take
          (([⟨5, 4, 6⟩] : List GasRecord).length - 10)
        ++ ([⟨5, 4, 6⟩] : List GasRecord).drop
          (([⟨5, 4, 6⟩] : List GasRecord).length - 10)
        = ([⟨5, 4, 6⟩] : List GasRecord) ∧
      (s.recentAvgEstimated : ℤ) =
        ⌊(((([⟨5, 4, 6⟩] : List GasRecord).drop
            (([⟨5, 4, 6⟩] : List GasRecord).length - 10)).map
            (·.estimated)).sum : ℚ)
          / ((([⟨5, 4, 6⟩] : List GasRecord).drop
            (([⟨5, 4, 6⟩] : List GasRecord).length - 10)).length : ℚ)⌋ ∧
      (s.recentAvgBuffered : ℤ) =
        ⌊(((([⟨5, 4, 6⟩] : List GasRecord).drop
            (([⟨5, 4, 6⟩] : List GasRecord).length - 10)).map
            (·.buffered)).sum : ℚ)
          / ((([⟨5, 4, 6⟩] : List GasRecord).drop
            (([⟨5, 4, 6⟩] : List GasRecord).length - 10)).length : ℚ)⌋ ∧
      s.bufferEfficiency =
        ((((([⟨5, 4, 6⟩] : List GasRecord).drop
              (([⟨5, 4, 6⟩] : List GasRecord).length - 10)).map
              (·.buffered)).sum : ℚ)
            / ((([⟨5, 4, 6⟩] : List GasRecord).drop
              (([⟨5, 4, 6⟩] : List GasRecord).length - 10)).length : ℚ)
          - (((([⟨5, 4, 6⟩] : List GasRecord).drop
              (([⟨5, 4, 6⟩] : List GasRecord).length - 10)).map
              (·.estimated)).sum : ℚ)
            / ((([⟨5, 4, 6⟩] : List GasRecord).drop
              (([⟨5, 4, 6⟩] : List GasRecord).length - 10)).length : ℚ))
          / ((((([⟨5, 4, 6⟩] : List GasRecord).drop
              (([⟨5, 4, 6⟩] : List GasRecord).length - 10)).map
              (·.estimated)).sum : ℚ)
            / ((([⟨5, 4, 6⟩] : List GasRecord).drop
              (([⟨5, 4, 6⟩] : List GasRecord).length - 10)).length : ℚ))
          * 100) :=
  ⟨by simp, (claim9_stats_amended ([⟨5, 4, 6⟩] : List GasRecord)).2 (by simp)⟩

/-- C10: `getNetworkCongestion` divides `gasUsed` by `gasLimit` in
`BigNumber` integer arithmetic, so a partially full block
(`0 < gasUsed < gasLimit`) always yields congestion exactly 0 (the
low-congestion discount `p * 90 / 100` fires); congestion 1 requires
`gasUsed ≥ gasLimit`; for any successfully fetched block with a non-zero
`gasLimit` the medium band `[0.3, 0.8]` is unreachable; only the error
fallback value 0.5 lands in the medium tier and leaves the price
unadjusted. -/
theorem claim10_integer_congestion (u L p : Nat) (e : RpcError) :
    (0 < u → u < L → getNetworkCongestion (.ok ⟨u, L⟩) = 0 ∧
      adjustForCongestion p (getNetworkCongestion (.ok ⟨u, L⟩))
        = p * 90 / 100) ∧
    (getNetworkCongestion (.ok ⟨u, L⟩) = 1 → L ≤ u) ∧
    (L ≠ 0 → ¬(3/10 ≤ getNetworkCongestion (.ok ⟨u, L⟩) ∧
      getNetworkCongestion (.ok ⟨u, L⟩) ≤ 8/10)) ∧
    getNetworkCongestion (.error e) = 1/2 ∧
    adjustForCongestion p (getNetworkCongestion (.error e)) = p := by
  have hgc : L ≠ 0 →
      getNetworkCongestion (.ok ⟨u, L⟩) = ((u / L : Nat) : ℚ) := by
    intro hL
    rw [getNetworkCongestion]
    exact if_neg hL
  refine ⟨fun hu hlt => ?_, fun h1 => ?_, fun hL hmed => ?_, rfl,
    adjustForCongestion_half p⟩
  · have hL : L ≠ 0 := by omega
    have h0 : getNetworkCongestion (.ok ⟨u, L⟩) = 0 := by
      rw [hgc hL, Nat.div_eq_of_lt hlt]
      norm_num
    refine ⟨h0, ?_⟩
    rw [h0, adjustForCongestion, if_neg (by norm_num), if_pos (by norm_num)]
  · by_cases hL : L = 0
    · rw [show getNetworkCongestion (.ok ⟨u, L⟩) = 1/2 by
        rw [getNetworkCongestion]; exact if_pos hL] at h1
      norm_num at h1
    · rw [hgc hL] at h1
      have hdiv : u / L = 1 := Nat.cast_eq_one.mp h1
      exact (Nat.one_le_div_iff (Nat.pos_of_ne_zero hL)).mp hdiv.ge
  · rw [hgc hL] at hmed
    obtain ⟨hlo, hhi⟩ := hmed
    rcases Nat.eq_zero_or_pos (u / L) with h | h
    · rw [h] at hlo
      norm_num at hlo
    · have hone : (1 : ℚ) ≤ ((u / L : Nat) : ℚ) := by exact_mod_cast h
      linarith

/-- Witness for C10: the half-full block `gasUsed = 5, gasLimit = 10`. -/
theorem claim10_integer_congestion_witness :
    getNetworkCongestion (.ok ⟨5, 10⟩) = 0 ∧
    adjustForCongestion 100 (getNetworkCongestion (.ok ⟨5, 10⟩))
      = 100 * 90 / 100 ∧
    ¬(3/10 ≤ getNetworkCongestion (.ok ⟨5, 10⟩) ∧
      getNetworkCongestion (.ok ⟨5, 10⟩) ≤ 8/10) ∧
    getNetworkCongestion (.error "network down") = 1/2 := by
  obtain ⟨h1, _, h3, h4, _⟩ :=
    claim10_integer_congestion 5 10 100 "network down"
  obtain ⟨ha, hb⟩ := h1 (by norm_num) (by norm_num)
  exact ⟨ha, hb, h3 (by norm_num), h4⟩

end BaseDevToolkit
